import Mathlib

/-!
Shallow embedding of the GitHub Developer Profiler backend
(`backend.py` as given in `GITHUB_PROFILER_SPEC.md`).

Python values flowing through the untyped parts of the program (parsed
JSON, profile dictionaries) are modelled by `JValue`; Python `dict`s by
insertion-ordered association lists; Python exceptions by `Except PyErr`.
CPython `set` iteration order is unspecified, so every place the code
converts a set to a list is parameterised by a listing function
constrained only by `IsSetListing` (the elements, each exactly once, in
some order).
-/

set_option autoImplicit false

namespace Profiler

/-- Untrusted JSON-like Python values. -/
inductive JValue where
  | null
  | bool (b : Bool)
  | num (n : Int)
  | str (s : String)
  | arr (elems : List JValue)
  | obj (fields : List (String × JValue))

mutual

/-- Structural equality test on `JValue` (Python `==` on these values). -/
def JValue.beq : JValue → JValue → Bool
  | JValue.null, JValue.null => true
  | JValue.bool a, JValue.bool b => a == b
  | JValue.num a, JValue.num b => a == b
  | JValue.str a, JValue.str b => a == b
  | JValue.arr xs, JValue.arr ys => JValue.beqArr xs ys
  | JValue.obj xs, JValue.obj ys => JValue.beqObj xs ys
  | _, _ => false

/-- Elementwise equality test for JSON arrays. -/
def JValue.beqArr : List JValue → List JValue → Bool
  | [], [] => true
  | x :: xs, y :: ys => JValue.beq x y && JValue.beqArr xs ys
  | _, _ => false

/-- Entrywise equality test for JSON objects. -/
def JValue.beqObj : List (String × JValue) → List (String × JValue) → Bool
  | [], [] => true
  | (k, v) :: xs, (l, w) :: ys => k == l && (JValue.beq v w && JValue.beqObj xs ys)
  | _, _ => false

end

mutual

theorem JValue.beq_iff : ∀ a b : JValue, JValue.beq a b = true ↔ a = b
  | JValue.null, b => by cases b <;> simp [JValue.beq]
  | JValue.bool a, b => by cases b <;> simp [JValue.beq]
  | JValue.num a, b => by cases b <;> simp [JValue.beq]
  | JValue.str a, b => by cases b <;> simp [JValue.beq]
  | JValue.arr xs, b => by
      cases b <;> simp [JValue.beq]
      case arr ys => exact JValue.beqArr_iff xs ys
  | JValue.obj xs, b => by
      cases b <;> simp [JValue.beq]
      case obj ys => exact JValue.beqObj_iff xs ys

theorem JValue.beqArr_iff : ∀ xs ys : List JValue, JValue.beqArr xs ys = true ↔ xs = ys
  | [], ys => by cases ys <;> simp [JValue.beqArr]
  | x :: xs, [] => by simp [JValue.beqArr]
  | x :: xs, y :: ys => by
      simp [JValue.beqArr, JValue.beq_iff x y, JValue.beqArr_iff xs ys]

theorem JValue.beqObj_iff :
    ∀ xs ys : List (String × JValue), JValue.beqObj xs ys = true ↔ xs = ys
  | [], ys => by cases ys <;> simp [JValue.beqObj]
  | (k, v) :: xs, [] => by simp [JValue.beqObj]
  | (k, v) :: xs, (l, w) :: ys => by
      simp [JValue.beqObj, JValue.beq_iff v w, JValue.beqObj_iff xs ys, and_assoc]

end

instance : BEq JValue := ⟨JValue.beq⟩

instance : LawfulBEq JValue where
  eq_of_beq h := (JValue.beq_iff _ _).mp h
  rfl := by intro a; exact (JValue.beq_iff a a).mpr rfl

instance : DecidableEq JValue := fun a b =>
  decidable_of_iff (JValue.beq a b = true) (JValue.beq_iff a b)

/-- A Python `dict` with `String` keys, in insertion order. -/
abbrev PyDict := List (String × JValue)

/-- Python exceptions that the embedded code can raise. -/
inductive PyErr where
  | keyError (k : String)
  | typeError
  | zeroDivisionError
  | indexError
  | serviceError (msg : String)
  | jsonDecodeError
  | httpException (status : Nat) (detail : String)
  deriving DecidableEq

/-- Result of running a piece of Python code: a value, or a raised exception. -/
abbrev Py (α : Type) := Except PyErr α

instance {ε α : Type} [DecidableEq ε] [DecidableEq α] : DecidableEq (Except ε α) :=
  fun a b =>
    match a, b with
    | Except.ok x, Except.ok y => decidable_of_iff (x = y) (by simp)
    | Except.ok _, Except.error _ => Decidable.isFalse (by intro h; cases h)
    | Except.error _, Except.ok _ => Decidable.isFalse (by intro h; cases h)
    | Except.error x, Except.error y => decidable_of_iff (x = y) (by simp)

/-- A human-readable rendering of an exception (Python `str(e)`). -/
def PyErr.msg : PyErr → String
  | PyErr.keyError k => k
  | PyErr.typeError => "TypeError"
  | PyErr.zeroDivisionError => "division by zero"
  | PyErr.indexError => "list index out of range"
  | PyErr.serviceError m => m
  | PyErr.jsonDecodeError => "Expecting value"
  | PyErr.httpException _ d => d

/-- `d[k]`: first (and, for dicts built by the program, only) binding of `k`;
raises `KeyError` when `k` is absent. -/
def dictGet (d : PyDict) (k : String) : Py JValue :=
  match d.find? (fun kv => kv.1 == k) with
  | some kv => Except.ok kv.2
  | none => Except.error (PyErr.keyError k)

/-- `d[k] = v`: updates the binding in place (keeping its position) when the
key is present, otherwise appends it — CPython dict insertion-order
semantics. -/
def dictSet : PyDict → String → JValue → PyDict
  | [], k, v => [(k, v)]
  | kv :: d, k, v => if kv.1 = k then (k, v) :: d else kv :: dictSet d k v

/-- Python `{**a, **b}`. -/
def dictMerge (a b : PyDict) : PyDict :=
  b.foldl (fun acc kv => dictSet acc kv.1 kv.2) a

/-- Python `k in d`. -/
def hasKey (d : PyDict) (k : String) : Bool :=
  d.any (fun kv => kv.1 == k)

/-- `l[i]` on a Python list: `IndexError` when out of range. -/
def pyIndex {α : Type} (l : List α) (i : Nat) : Py α :=
  match l.get? i with
  | some x => Except.ok x
  | none => Except.error PyErr.indexError

/-! ### String primitives

Kernel-computable (structurally recursive) implementations of the Python
string operations the backend uses, over the underlying character lists. -/

/-- ASCII whitespace stripped by Python `str.strip()`. -/
def isSpaceChar (c : Char) : Bool :=
  c == ' ' || c == '\t' || c == '\n' || c == '\r'

/-- Python `s.strip()`. -/
def pyStrip (s : String) : String :=
  String.mk (((s.data.dropWhile isSpaceChar).reverse.dropWhile isSpaceChar).reverse)

/-- Python `s.startswith(p)`. -/
def strStartsWith (s p : String) : Bool :=
  p.data.isPrefixOf s.data

/-- Python `s.endswith(p)`. -/
def strEndsWith (s p : String) : Bool :=
  p.data.isSuffixOf s.data

/-- Python `s[:n]`. -/
def strTake (s : String) (n : Nat) : String :=
  String.mk (s.data.take n)

/-- Python `s[n:]`. -/
def strDrop (s : String) (n : Nat) : String :=
  String.mk (s.data.drop n)

/-- Worker for `strSplitOn`; the fuel argument (the length of the
remaining text) makes the recursion structural. -/
def splitOnFuel (sep : List Char) : Nat → List Char → List Char → List (List Char)
  | _, [], acc => [acc.reverse]
  | 0, l, acc => [acc.reverse ++ l]
  | fuel + 1, c :: rest, acc =>
      if sep ≠ [] ∧ sep.isPrefixOf (c :: rest) then
        acc.reverse :: splitOnFuel sep fuel ((c :: rest).drop sep.length) []
      else splitOnFuel sep fuel rest (c :: acc)

/-- Python `s.split(sep)` for a non-empty separator. -/
def strSplitOn (s sep : String) : List String :=
  (splitOnFuel sep.data s.data.length s.data []).map String.mk

/-- Python `+` on JSON values: numbers add, strings and lists concatenate,
anything else raises `TypeError`. -/
def pyAdd : JValue → JValue → Py JValue
  | JValue.num a, JValue.num b => Except.ok (JValue.num (a + b))
  | JValue.str a, JValue.str b => Except.ok (JValue.str (a ++ b))
  | JValue.arr a, JValue.arr b => Except.ok (JValue.arr (a ++ b))
  | _, _ => Except.error PyErr.typeError

/-- Whether a value may be a member of a Python `set` / a `dict` key. -/
def JValue.hashable : JValue → Bool
  | JValue.arr _ => false
  | JValue.obj _ => false
  | _ => true

/-- Python iteration over a value: lists yield elements, strings yield
characters, dicts yield their keys; other values are not iterable. -/
def pyIter : JValue → Py (List JValue)
  | JValue.arr xs => Except.ok xs
  | JValue.str s => Except.ok (s.data.map (fun c => JValue.str (String.mk [c])))
  | JValue.obj kvs => Except.ok (kvs.map (fun kv => JValue.str kv.1))
  | _ => Except.error PyErr.typeError

/-- Python `set(x)` materialised as the list of elements to be deduplicated:
the argument must be iterable and its elements hashable. -/
def pySetElems (v : JValue) : Py (List JValue) := do
  let xs ← pyIter v
  if xs.all JValue.hashable then Except.ok xs else Except.error PyErr.typeError

/-- `f` is a valid model of CPython's `list(set(l))` (for one fixed hash
seed): each distinct element of `l` exactly once, in an order the language
does not specify. -/
def IsSetListing {α : Type} (f : List α → List α) : Prop :=
  ∀ l, (f l).Nodup ∧ ∀ a, a ∈ f l ↔ a ∈ l

/-- One concrete listing satisfying `IsSetListing`: keep the first
occurrence of each element, in first-seen order. -/
def dedupFirstSeen {α : Type} [DecidableEq α] (l : List α) : List α :=
  l.foldl (fun acc a => if a ∈ acc then acc else acc ++ [a]) []

theorem dedupFirstSeen_loop_spec {α : Type} [DecidableEq α] (l : List α) :
    ∀ acc : List α, acc.Nodup →
      (l.foldl (fun acc a => if a ∈ acc then acc else acc ++ [a]) acc).Nodup ∧
      ∀ a, a ∈ l.foldl (fun acc a => if a ∈ acc then acc else acc ++ [a]) acc ↔
        (a ∈ acc ∨ a ∈ l) := by
  induction l with
  | nil => intro acc h; simpa using h
  | cons x xs ih =>
      intro acc h
      by_cases hx : x ∈ acc
      · have := ih acc h
        simp only [List.foldl_cons, if_pos hx]
        refine ⟨this.1, ?_⟩
        intro a
        rw [this.2 a]
        constructor
        · rintro (ha | ha)
          · exact Or.inl ha
          · exact Or.inr (List.mem_cons_of_mem _ ha)
        · rintro (ha | ha)
          · exact Or.inl ha
          · rcases List.mem_cons.mp ha with rfl | ha
            · exact Or.inl hx
            · exact Or.inr ha
      · have hacc : (acc ++ [x]).Nodup := by
          simp [List.nodup_append, h, hx]
        have := ih (acc ++ [x]) hacc
        simp only [List.foldl_cons, if_neg hx]
        refine ⟨this.1, ?_⟩
        intro a
        rw [this.2 a]
        simp only [List.mem_append, List.mem_singleton, List.mem_cons]
        tauto

theorem isSetListing_dedupFirstSeen {α : Type} [DecidableEq α] :
    IsSetListing (dedupFirstSeen (α := α)) := by
  intro l
  have h := dedupFirstSeen_loop_spec l [] (List.nodup_nil)
  refine ⟨h.1, ?_⟩
  intro a
  rw [dedupFirstSeen, h.2 a]
  simp

/-! ## Raw event records and per-author aggregation (`analyze_repository`) -/

/-- One stored commit entry in `author_data[author]["commits"]`. -/
structure CommitInfo where
  message : String
  date : String
  additions : Nat
  deletions : Nat
  deriving DecidableEq

/-- `commit.author` as used by the aggregation loop. -/
structure RawAuthor where
  login : String
  name : Option String
  avatar_url : String
  deriving DecidableEq

/-- One commit as fetched from the record source. `files = none` models a
commit whose file details are unavailable, so that accessing them raises
(the code catches this and skips file analysis for that commit). -/
structure RawCommit where
  author : Option RawAuthor
  message : String
  date : String
  hour : Nat
  additions : Nat
  deletions : Nat
  files : Option (List String)
  deriving DecidableEq

/-- The per-author accumulator dict built by `analyze_repository`. -/
structure AuthorData where
  name : String
  avatar_url : String
  commits : List CommitInfo
  files_changed : List String
  languages : List (String × Nat)
  commit_times : List Nat
  deriving DecidableEq

/-- The `ext_map` of `detect_language`, in source order. -/
def ext_map : List (String × String) :=
  [(".py", "Python"), (".js", "JavaScript"), (".ts", "TypeScript"),
   (".jsx", "React"), (".tsx", "React"), (".java", "Java"), (".go", "Go"),
   (".rs", "Rust"), (".cpp", "C++"), (".c", "C"), (".rb", "Ruby"),
   (".php", "PHP"), (".swift", "Swift"), (".kt", "Kotlin"),
   (".scala", "Scala"), (".sql", "SQL"), (".sh", "Shell"),
   (".yml", "YAML"), (".yaml", "YAML"), (".json", "JSON"),
   (".md", "Markdown")]

/-- `detect_language`: first matching extension wins, unmatched returns None. -/
def detect_language (filename : String) : Option String :=
  (ext_map.find? (fun p => strEndsWith filename p.1)).map (fun p => p.2)

/-- `Counter[k] += 1` on an insertion-ordered count map. -/
def counterAdd (c : List (String × Nat)) (k : String) : List (String × Nat) :=
  if c.any (fun kv => kv.1 == k) then
    c.map (fun kv => if kv.1 == k then (kv.1, kv.2 + 1) else kv)
  else c ++ [(k, 1)]

/-- Stable insertion keeping counts in descending order: the new item goes
after every item whose count is at least as large. -/
def insertByCountDesc (x : String × Nat) : List (String × Nat) → List (String × Nat)
  | [] => [x]
  | y :: ys => if x.2 ≤ y.2 then y :: insertByCountDesc x ys else x :: y :: ys

/-- Stable sort by count descending (ties keep insertion order). -/
def sortByCountDesc (l : List (String × Nat)) : List (String × Nat) :=
  l.foldl (fun acc x => insertByCountDesc x acc) []

/-- `Counter.most_common(n)`: the `n` largest counts, ties broken by
first-seen (insertion) order. -/
def mostCommon (n : Nat) (c : List (String × Nat)) : List (String × Nat) :=
  (sortByCountDesc c).take n

/-- Python `name or login`: `None` and the empty string fall back. -/
def nameOrLogin (name : Option String) (login : String) : String :=
  match name with
  | some n => if n = "" then login else n
  | none => login

/-- The fresh accumulator created on first sight of an author. -/
def newAuthorData (a : RawAuthor) : AuthorData :=
  { name := nameOrLogin a.name a.login, avatar_url := a.avatar_url,
    commits := [], files_changed := [], languages := [], commit_times := [] }

/-- The `for file in commit.files` loop, with its `try`/`except: pass`:
unavailable file details are silently skipped. -/
def recordFiles (ad : AuthorData) (c : RawCommit) : AuthorData :=
  match c.files with
  | none => ad
  | some fs =>
      fs.foldl (fun ad f =>
        let ad := { ad with files_changed := ad.files_changed ++ [f] }
        match detect_language f with
        | some lang => { ad with languages := counterAdd ad.languages lang }
        | none => ad) ad

/-- The body of the aggregation loop for one commit of a known author. -/
def addCommit (ad : AuthorData) (c : RawCommit) : AuthorData :=
  recordFiles
    { ad with
      commits := ad.commits ++
        [{ message := c.message, date := c.date,
           additions := c.additions, deletions := c.deletions }],
      commit_times := ad.commit_times ++ [c.hour] } c

/-- Update the value bound to `k` in an insertion-ordered association list. -/
def assocUpdate (m : List (String × AuthorData)) (k : String)
    (f : AuthorData → AuthorData) : List (String × AuthorData) :=
  m.map (fun kv => if kv.1 == k then (kv.1, f kv.2) else kv)

/-- One iteration of the aggregation loop of `analyze_repository`: commits
with no author are dropped; otherwise the author's accumulator is created
on first sight and extended. -/
def aggStep (m : List (String × AuthorData)) (c : RawCommit) :
    List (String × AuthorData) :=
  match c.author with
  | none => m
  | some a =>
      let m' := if m.any (fun kv => kv.1 == a.login) then m
                else m ++ [(a.login, newAuthorData a)]
      assocUpdate m' a.login (fun ad => addCommit ad c)

/-- The `author_data` dict built by `analyze_repository`. -/
def aggregate (commits : List RawCommit) : List (String × AuthorData) :=
  commits.foldl aggStep []

/-- The authors for which `analyze_repository` actually calls
`generate_profile`: those not skipped by `if len(data["commits"]) < 2`. -/
def synthesizedAuthors (commits : List RawCommit) : List (String × AuthorData) :=
  (aggregate commits).filter (fun p => !decide (p.2.commits.length < 2))

/-! ## Evidence selection and profile synthesis (`generate_profile`) -/

/-- Python `/` on the integer counters: float division, raising
`ZeroDivisionError` on a zero denominator; the exact quotient is kept. -/
def pyDivNat (a b : Nat) : Py ℚ :=
  if b = 0 then Except.error PyErr.zeroDivisionError
  else Except.ok ((a : ℚ) / (b : ℚ))

/-- `msg.split(chr(10))[0]`. -/
def firstLine (s : String) : String :=
  (strSplitOn s "\n").headD ""

/-- Sum of the per-commit `additions` counters. -/
def sumAdditions (cs : List CommitInfo) : Nat :=
  (cs.map (fun c => c.additions)).sum

/-- Sum of the per-commit `deletions` counters. -/
def sumDeletions (cs : List CommitInfo) : Nat :=
  (cs.map (fun c => c.deletions)).sum

/-- The deterministic components of the prompt context built by
`generate_profile`, before the fixed instructional text is wrapped around
them. `ord` models `list(set(·))` on the path sample. -/
structure EvidenceBundle where
  username : String
  repoName : String
  totalCommits : Nat
  avgAdditions : ℚ
  avgDeletions : ℚ
  topLanguages : List (String × Nat)
  recentMessages : List String
  filePaths : List String
  deriving DecidableEq

/-- Evidence selection exactly as in `generate_profile`: the first 20
commit messages (first line, 100 chars, `- ` prefix), `most_common(5)`
languages, `list(set(files_changed[:40]))[:20]` paths, and the two
averages computed before the `try` block. -/
def mkEvidence (username : String) (cd : AuthorData) (repoName : String)
    (ord : List String → List String) : Py EvidenceBundle := do
  let recent_messages := (cd.commits.take 20).map (fun c => c.message)
  let top_languages := mostCommon 5 cd.languages
  let file_paths := ord (cd.files_changed.take 40)
  let avgAdd ← pyDivNat (sumAdditions cd.commits) cd.commits.length
  let avgDel ← pyDivNat (sumDeletions cd.commits) cd.commits.length
  Except.ok
    { username := username, repoName := repoName,
      totalCommits := cd.commits.length,
      avgAdditions := avgAdd, avgDeletions := avgDel,
      topLanguages := top_languages,
      recentMessages := recent_messages.map (fun m => "- " ++ strTake (firstLine m) 100),
      filePaths := file_paths.take 20 }

/-- The reasoning-service call, seen from the caller: either the client
raised (service/timeout error) or it returned some text. -/
inductive ClaudeOutcome where
  | raised (msg : String)
  | text (s : String)
  deriving DecidableEq

/-- The markdown-fence repair applied to the stripped response text before
JSON parsing: drop the fencing and a leading `json` language tag. -/
def stripFences (s : String) : Py String := do
  let t := pyStrip s
  if strStartsWith t "```" then do
    let t1 ← pyIndex (strSplitOn t "```") 1
    if strStartsWith t1 "json" then Except.ok (strDrop t1 4) else Except.ok t1
  else Except.ok t

/-- The basic fields `generate_profile` merges under the parsed response. -/
def basicProfile (username : String) (cd : AuthorData) (repoName : String)
    (top_languages : List (String × Nat)) : PyDict :=
  [("github_username", JValue.str username),
   ("name", JValue.str cd.name),
   ("avatar_url", JValue.str cd.avatar_url),
   ("total_commits", JValue.num (cd.commits.length : Int)),
   ("primary_languages",
     JValue.arr ((top_languages.take 3).map (fun p => JValue.str p.1))),
   ("repo_analyzed", JValue.str repoName)]

/-- The deterministic minimal profile returned when the `try` block of
`generate_profile` raises. -/
def fallbackProfile (username : String) (cd : AuthorData) (repoName : String)
    (top_languages : List (String × Nat)) : PyDict :=
  [("github_username", JValue.str username),
   ("name", JValue.str cd.name),
   ("avatar_url", JValue.str cd.avatar_url),
   ("total_commits", JValue.num (cd.commits.length : Int)),
   ("primary_languages",
     JValue.arr ((top_languages.take 3).map (fun p => JValue.str p.1))),
   ("expertise_areas", JValue.arr [JValue.str "Code contribution"]),
   ("frameworks", JValue.arr []),
   ("work_style", JValue.str "active contributor"),
   ("commit_pattern",
     JValue.str ("Made " ++ toString cd.commits.length ++ " commits")),
   ("ai_summary", JValue.str ("Active contributor to " ++ repoName)),
   ("best_for", JValue.arr [JValue.str "Code review", JValue.str "Technical questions"]),
   ("repo_analyzed", JValue.str repoName)]

/-- The body of the `try` block in `generate_profile`: call the service,
repair fencing, parse JSON, and build `{**basic, **profile_data}`; every
failure (raised call, unparsable text, non-object payload) raises. -/
def synthAttempt (username : String) (cd : AuthorData) (repoName : String)
    (top_languages : List (String × Nat)) (outcome : ClaudeOutcome)
    (parse : String → Option JValue) : Py PyDict := do
  match outcome with
  | ClaudeOutcome.raised m => Except.error (PyErr.serviceError m)
  | ClaudeOutcome.text s => do
      let cleaned ← stripFences s
      match parse cleaned with
      | none => Except.error PyErr.jsonDecodeError
      | some (JValue.obj kvs) =>
          Except.ok (dictMerge (basicProfile username cd repoName top_languages) kvs)
      | some _ => Except.error PyErr.typeError

/-- `generate_profile`: evidence selection (outside the `try`, so a raised
`ZeroDivisionError` propagates), then the synthesis attempt with its
catch-all fallback. `parse` models `json.loads` (`none` = raises). -/
def generate_profile (username : String) (cd : AuthorData) (repoName : String)
    (ord : List String → List String) (outcome : ClaudeOutcome)
    (parse : String → Option JValue) : Py PyDict := do
  let ev ← mkEvidence username cd repoName ord
  match synthAttempt username cd repoName ev.topLanguages outcome parse with
  | Except.ok p => Except.ok p
  | Except.error _ => Except.ok (fallbackProfile username cd repoName ev.topLanguages)

/-! ## Cross-repository merge and the `/analyze` endpoint (`analyze_repos`) -/

/-- The merge body of `analyze_repos` for a developer already present:
`total_commits` is summed in place, `expertise_areas` becomes
`list(set(existing) | set(new))[:5]` (the union listed by `ordJ`), and no
other key of the existing profile is touched. -/
def mergeProfile (ordJ : List JValue → List JValue) (old newP : PyDict) :
    Py PyDict := do
  let t1 ← dictGet old "total_commits"
  let t2 ← dictGet newP "total_commits"
  let tSum ← pyAdd t1 t2
  let d1 := dictSet old "total_commits" tSum
  let e1 ← pySetElems (← dictGet d1 "expertise_areas")
  let e2 ← pySetElems (← dictGet newP "expertise_areas")
  Except.ok (dictSet d1 "expertise_areas" (JValue.arr ((ordJ (e1 ++ e2)).take 5)))

/-- Lookup in the `all_profiles` dict (keys are whatever
`profile["github_username"]` held). -/
def profLookup (m : List (JValue × PyDict)) (k : JValue) : Option PyDict :=
  (m.find? (fun kv => kv.1 == k)).map (fun kv => kv.2)

/-- Store into the `all_profiles` dict, insertion-ordered. -/
def profStore (m : List (JValue × PyDict)) (k : JValue) (v : PyDict) :
    List (JValue × PyDict) :=
  if m.any (fun kv => kv.1 == k) then
    m.map (fun kv => if kv.1 == k then (k, v) else kv)
  else m ++ [(k, v)]

/-- The per-repository merge loop of `analyze_repos`: each new profile is
inserted, or merged into the entry with the same `github_username`. -/
def mergeLoop (ordJ : List JValue → List JValue)
    (start : List (JValue × PyDict)) (profiles : List PyDict) :
    Py (List (JValue × PyDict)) :=
  profiles.foldlM (fun m profile => do
    let uname ← dictGet profile "github_username"
    if uname.hashable then
      match profLookup m uname with
      | some old => do
          let merged ← mergeProfile ordJ old profile
          Except.ok (profStore m uname merged)
      | none => Except.ok (m ++ [(uname, profile)])
    else Except.error PyErr.typeError) start

/-- The GitHub side of `analyze_repository`, at its interface boundary:
for a URL, either the fetch raises or it yields the repository name and
its recent commits. -/
abbrev RepoFetch := String → Except String (String × List RawCommit)

/-- `analyze_repository`: fetch, aggregate, synthesize one profile per
author with at least 2 commits; any raised exception is converted to an
HTTP 400 `HTTPException` with a human-readable cause. -/
def analyze_repository (fetch : RepoFetch) (ord : List String → List String)
    (parse : String → Option JValue) (outcomes : String → ClaudeOutcome)
    (repo_url : String) : Py (List PyDict) :=
  match fetch repo_url with
  | Except.error msg =>
      Except.error (PyErr.httpException 400 ("Error analyzing repository: " ++ msg))
  | Except.ok (repoName, commits) =>
      match (synthesizedAuthors commits).mapM
          (fun p => generate_profile p.1 p.2 repoName ord (outcomes p.1) parse) with
      | Except.ok ps => Except.ok ps
      | Except.error e =>
          Except.error (PyErr.httpException 400 ("Error analyzing repository: " ++ e.msg))

/-- The body of `analyze_repos` up to (but not including) `save_profiles`:
blank URLs are skipped, each repository is analyzed, and its profiles are
merged into the fresh `all_profiles` accumulator. A raised exception
propagates and aborts the whole request. -/
def analyze_repos (fetch : RepoFetch) (ord : List String → List String)
    (ordJ : List JValue → List JValue) (parse : String → Option JValue)
    (outcomes : String → ClaudeOutcome) (repos : List String) :
    Py (List (JValue × PyDict)) :=
  repos.foldlM (fun all repo_url =>
    if pyStrip repo_url = "" then Except.ok all
    else do
      let profiles ← analyze_repository fetch ord parse outcomes repo_url
      mergeLoop ordJ all profiles) []

/-- The persisted state: the contents of `profiles.json`. -/
structure ServerState where
  store : List PyDict
  deriving DecidableEq

/-- The JSON body returned by a successful `POST /analyze`. -/
structure AnalyzeResponse where
  success : Bool
  profiles_generated : Nat
  profiles : List PyDict
  deriving DecidableEq

/-- The `/analyze` endpoint: on success, `save_profiles` atomically
replaces the whole snapshot with `list(all_profiles.values())`; on a
raised exception the snapshot is left untouched and the error surfaces. -/
def analyze_endpoint (fetch : RepoFetch) (ord : List String → List String)
    (ordJ : List JValue → List JValue) (parse : String → Option JValue)
    (outcomes : String → ClaudeOutcome) (st : ServerState)
    (repos : List String) : ServerState × Py AnalyzeResponse :=
  match analyze_repos fetch ord ordJ parse outcomes repos with
  | Except.error e => (st, Except.error e)
  | Except.ok all =>
      let ps := all.map (fun kv => kv.2)
      ({ store := ps },
       Except.ok { success := true, profiles_generated := ps.length, profiles := ps })

/-! ## Free-text matching (`search_profiles`) -/

/-- The JSON body returned by `GET /search`. -/
structure SearchResponse where
  matchList : List PyDict
  message : Option String
  query : Option String
  deriving DecidableEq

/-- `next((p for p in profiles if p["github_username"] == u), None)`:
profiles are examined lazily, so a malformed profile after the first hit
is never touched. -/
def findProfile (profiles : List PyDict) (mu : JValue) : Py (Option PyDict) :=
  match profiles with
  | [] => Except.ok none
  | p :: rest => do
      let pu ← dictGet p "github_username"
      if pu == mu then Except.ok (some p) else findProfile rest mu

/-- The enrichment loop of `search_profiles`: identifiers absent from the
store are dropped silently; present ones yield `{**full_profile, **match}`. -/
def enrichMatches (profiles : List PyDict) (ms : List JValue) :
    Py (List PyDict) :=
  ms.foldlM (fun acc m => do
    match m with
    | JValue.obj mkv => do
        let mu ← dictGet mkv "github_username"
        match (← findProfile profiles mu) with
        | some p => Except.ok (acc ++ [dictMerge p mkv])
        | none => Except.ok acc
    | _ => Except.error PyErr.typeError) []

/-- The body of the `try` block in `search_profiles`: call the service,
repair fencing, parse, then filter and enrich the returned matches. -/
def searchAttempt (profiles : List PyDict) (outcome : ClaudeOutcome)
    (parse : String → Option JValue) : Py (List PyDict) := do
  match outcome with
  | ClaudeOutcome.raised m => Except.error (PyErr.serviceError m)
  | ClaudeOutcome.text s => do
      let cleaned ← stripFences s
      match parse cleaned with
      | none => Except.error PyErr.jsonDecodeError
      | some v => do
          let ms ← pyIter v
          enrichMatches profiles ms

/-- `search_profiles`, paired with the number of reasoning-service calls
it makes: an empty store short-circuits with an informational body and no
call; otherwise one call is made and any raised exception becomes an HTTP
500 `HTTPException`. -/
def search_profiles (query : String) (profiles : List PyDict)
    (outcome : ClaudeOutcome) (parse : String → Option JValue) :
    Nat × Py SearchResponse :=
  if profiles.isEmpty then
    (0, Except.ok { matchList := [],
                    message := some "No profiles available. Analyze repositories first.",
                    query := none })
  else
    (1, match searchAttempt profiles outcome parse with
        | Except.ok res =>
            Except.ok { matchList := res, message := none, query := some query }
        | Except.error e =>
            Except.error (PyErr.httpException 500 ("Search error: " ++ e.msg)))

/-! ## Statement-support definitions -/

/-- A reasoning-service outcome on which the `try` body of
`generate_profile` fails: either the call itself raised, or the
fence-repaired response text does not parse as a JSON object (malformed
JSON, empty text, a bare array, ...). -/
def BadSynthesisOutcome (parse : String → Option JValue) : ClaudeOutcome → Prop
  | ClaudeOutcome.raised _ => True
  | ClaudeOutcome.text s =>
      ∀ c, stripFences s = Except.ok c → ∀ kvs, parse c ≠ some (JValue.obj kvs)

/-- The path sample as the specification's words describe it
("de-duplicated (set semantics), then truncated to a fixed cap, preserving
first-seen order pre-dedup"), stated here only to be compared with what
`mkEvidence` computes. -/
def specPathSample (files : List String) : List String :=
  (dedupFirstSeen files).take 20

/-- The filter-and-enrich rule of the Matching Engine, written out
directly: each returned match object keeps only the first stored profile
with the same `github_username` (if any) and is merged over it. -/
def specEnrich (profiles : List PyDict) (ms : List (List (String × JValue))) :
    List PyDict :=
  ms.filterMap (fun m =>
    match dictGet m "github_username" with
    | Except.ok mu =>
        (profiles.find? (fun p =>
          match dictGet p "github_username" with
          | Except.ok pu => pu == mu
          | Except.error _ => false)).map (fun p => dictMerge p m)
    | Except.error _ => none)

/-! ## Concrete scenario data for witnesses and counterexamples -/

/-- A contributor with two commits. -/
def wAlice : RawAuthor :=
  { login := "alice", name := some "Alice A", avatar_url := "http://a" }

/-- A contributor with a single commit (below the threshold). -/
def wBob : RawAuthor :=
  { login := "bob", name := none, avatar_url := "http://b" }

/-- First commit by alice. -/
def wCommit1 : RawCommit :=
  { author := some wAlice, message := "fix bug", date := "d1", hour := 3,
    additions := 10, deletions := 2, files := none }

/-- Second commit by alice. -/
def wCommit2 : RawCommit :=
  { author := some wAlice, message := "add feature", date := "d2", hour := 4,
    additions := 6, deletions := 0, files := none }

/-- The only commit by bob. -/
def wCommit3 : RawCommit :=
  { author := some wBob, message := "typo", date := "d3", hour := 5,
    additions := 1, deletions := 1, files := none }

/-- A small fetched commit history. -/
def wCommits : List RawCommit := [wCommit1, wCommit2, wCommit3]

/-- The accumulator `aggregate wCommits` builds for alice. -/
def wAliceData : AuthorData :=
  { name := "Alice A", avatar_url := "http://a",
    commits := [{ message := "fix bug", date := "d1", additions := 10, deletions := 2 },
                { message := "add feature", date := "d2", additions := 6, deletions := 0 }],
    files_changed := [], languages := [], commit_times := [3, 4] }

/-- The accumulator `aggregate wCommits` builds for bob. -/
def wBobData : AuthorData :=
  { name := "bob", avatar_url := "http://b",
    commits := [{ message := "typo", date := "d3", additions := 1, deletions := 1 }],
    files_changed := [], languages := [], commit_times := [5] }

/-- Aggregated activity whose path list repeats one path 40 times before a
second path: the code's cap-then-dedup drops the second path. -/
def wCarolData : AuthorData :=
  { name := "Carol", avatar_url := "http://c",
    commits := [{ message := "m1", date := "d", additions := 1, deletions := 0 },
                { message := "m2", date := "d", additions := 3, deletions := 1 }],
    files_changed := List.replicate 40 "a.py" ++ ["b.js"],
    languages := [("Python", 40), ("JavaScript", 1)], commit_times := [1, 2] }

/-- An existing stored profile for bob. -/
def pOldProfile : PyDict :=
  [("github_username", JValue.str "bob"),
   ("total_commits", JValue.num 5),
   ("primary_languages", JValue.arr [JValue.str "Python"]),
   ("expertise_areas", JValue.arr [JValue.str "A", JValue.str "B"]),
   ("ai_summary", JValue.str "old summary")]

/-- A newly synthesized profile for the same bob from another source. -/
def pNewProfile : PyDict :=
  [("github_username", JValue.str "bob"),
   ("total_commits", JValue.num 3),
   ("primary_languages", JValue.arr [JValue.str "Go"]),
   ("expertise_areas", JValue.arr [JValue.str "B", JValue.str "C"]),
   ("ai_summary", JValue.str "new summary")]

/-- A profile whose expertise list has six distinct entries. -/
def pSixProfile : PyDict :=
  [("github_username", JValue.str "dan"),
   ("total_commits", JValue.num 4),
   ("expertise_areas",
     JValue.arr [JValue.str "A1", JValue.str "A2", JValue.str "A3",
                 JValue.str "A4", JValue.str "A5", JValue.str "A6"]),
   ("ai_summary", JValue.str "dan summary")]

/-- A stored profile with identifier `A`. -/
def pStoreA : PyDict :=
  [("github_username", JValue.str "A"),
   ("relevance_score", JValue.num 1),
   ("ai_summary", JValue.str "profile A")]

/-- A stored profile with identifier `B`. -/
def pStoreB : PyDict :=
  [("github_username", JValue.str "B"),
   ("ai_summary", JValue.str "profile B")]

/-- A returned match naming the stored identifier `A`. -/
def wMatchA : List (String × JValue) :=
  [("github_username", JValue.str "A"),
   ("relevance_score", JValue.num 95),
   ("match_reason", JValue.str "expert")]

/-- A returned match naming the unknown identifier `C`. -/
def wMatchC : List (String × JValue) :=
  [("github_username", JValue.str "C"),
   ("relevance_score", JValue.num 80)]

/-- A parse function returning the two matches above for the fixed
response text `resp`. -/
def wSearchParse : String → Option JValue := fun t =>
  if t = "resp" then some (JValue.arr [JValue.obj wMatchA, JValue.obj wMatchC])
  else none

/-- A record source with one good repository and failures elsewhere. -/
def wFetch : RepoFetch := fun u =>
  if u = "https://github.com/acme/good" then Except.ok ("good", wCommits)
  else Except.error "boom"

/-- A reasoning service that always raises. -/
def wOutcomes : String → ClaudeOutcome := fun _ => ClaudeOutcome.raised "service down"

/-- A parse function that always fails (`json.loads` raising). -/
def wParseNone : String → Option JValue := fun _ => none

/-! ## Lemmas about the dictionary model -/

@[simp] theorem pyBind_ok {α β : Type} (a : α) (f : α → Py β) :
    (Except.ok a >>= f : Py β) = f a := rfl

@[simp] theorem pyBind_error {α β : Type} (e : PyErr) (f : α → Py β) :
    (Except.error e >>= f : Py β) = Except.error e := rfl

theorem dictGet_cons (kv : String × JValue) (d : PyDict) (k : String) :
    dictGet (kv :: d) k = if kv.1 = k then Except.ok kv.2 else dictGet d k := by
  by_cases h : kv.1 = k
  · simp [dictGet, List.find?, h]
  · have hb : (kv.1 == k) = false := by simpa using h
    simp [dictGet, List.find?, h, hb]

theorem dictGet_dictSet_self (d : PyDict) (k : String) (v : JValue) :
    dictGet (dictSet d k v) k = Except.ok v := by
  induction d with
  | nil => simp [dictSet, dictGet, List.find?]
  | cons kv d ih =>
      by_cases h : kv.1 = k
      · simp [dictSet, h, dictGet_cons]
      · simp [dictSet, h, dictGet_cons, ih]

theorem dictGet_dictSet_ne (d : PyDict) (k k' : String) (v : JValue)
    (h : k ≠ k') : dictGet (dictSet d k v) k' = dictGet d k' := by
  induction d with
  | nil => simp [dictSet, dictGet_cons, h, dictGet]
  | cons kv d ih =>
      by_cases hk : kv.1 = k
      · subst hk
        simp [dictSet, dictGet_cons, h]
      · simp [dictSet, hk, dictGet_cons, ih]

theorem dictMerge_nil (a : PyDict) : dictMerge a [] = a := rfl

theorem dictMerge_cons (a : PyDict) (kv : String × JValue) (b : PyDict) :
    dictMerge a (kv :: b) = dictMerge (dictSet a kv.1 kv.2) b := rfl

theorem dictGet_dictMerge_of_not_mem (a b : PyDict) (k : String)
    (h : k ∉ b.map Prod.fst) : dictGet (dictMerge a b) k = dictGet a k := by
  induction b generalizing a with
  | nil => rfl
  | cons kv b ih =>
      simp only [List.map_cons, List.mem_cons, not_or] at h
      rw [dictMerge_cons, ih _ h.2, dictGet_dictSet_ne _ _ _ _ (fun he => h.1 he.symm)]

theorem dictGet_dictMerge_of_mem (a b : PyDict) (k : String)
    (hnd : (b.map Prod.fst).Nodup) (h : k ∈ b.map Prod.fst) :
    dictGet (dictMerge a b) k = dictGet b k := by
  induction b generalizing a with
  | nil => simp at h
  | cons kv b ih =>
      rw [dictMerge_cons, dictGet_cons]
      simp only [List.map_cons, List.nodup_cons] at hnd
      by_cases hk : kv.1 = k
      · subst hk
        rw [if_pos rfl, dictGet_dictMerge_of_not_mem _ _ _ hnd.1,
          dictGet_dictSet_self]
      · rw [if_neg hk]
        simp only [List.map_cons, List.mem_cons] at h
        rcases h with h | h
        · exact absurd h.symm hk
        · exact ih _ hnd.2 h

theorem hasKey_iff (d : PyDict) (k : String) :
    hasKey d k = true ↔ k ∈ d.map Prod.fst := by
  simp [hasKey, List.any_eq_true, List.mem_map]

theorem dictGet_of_hasKey (d : PyDict) (k : String) (h : hasKey d k = true) :
    ∃ v, dictGet d k = Except.ok v := by
  induction d with
  | nil => simp [hasKey] at h
  | cons kv d ih =>
      rw [dictGet_cons]
      by_cases hk : kv.1 = k
      · exact ⟨kv.2, by rw [if_pos hk]⟩
      · simp only [hasKey, List.any_cons, Bool.or_eq_true, beq_iff_eq] at h
        rcases h with h | h
        · exact absurd h hk
        · simpa [hk] using ih h

/-! ## Lemmas about association lists with unique keys -/

theorem assoc_nodup_functional {β : Type} (l : List (String × β))
    (hnd : (l.map Prod.fst).Nodup) {k : String} {a b : β}
    (ha : (k, a) ∈ l) (hb : (k, b) ∈ l) : a = b := by
  induction l with
  | nil => simp at ha
  | cons kv l ih =>
      simp only [List.map_cons, List.nodup_cons] at hnd
      rcases List.mem_cons.mp ha with rfl | ha'
      · rcases List.mem_cons.mp hb with hb' | hb'
        · injection hb' with h1 h2; exact h2.symm
        · exact absurd (List.mem_map_of_mem Prod.fst hb') hnd.1
      · rcases List.mem_cons.mp hb with rfl | hb'
        · exact absurd (List.mem_map_of_mem Prod.fst ha') hnd.1
        · exact ih hnd.2 ha' hb'

theorem assocUpdate_keys (m : List (String × AuthorData)) (k : String)
    (f : AuthorData → AuthorData) :
    (assocUpdate m k f).map Prod.fst = m.map Prod.fst := by
  induction m with
  | nil => rfl
  | cons kv m ih =>
      by_cases h : kv.1 = k <;> simp [assocUpdate, h] at ih ⊢ <;> exact ih

theorem aggStep_keys_nodup (m : List (String × AuthorData)) (c : RawCommit)
    (h : (m.map Prod.fst).Nodup) : ((aggStep m c).map Prod.fst).Nodup := by
  rcases hca : c.author with _ | a
  · simpa [aggStep, hca] using h
  · simp only [aggStep, hca]
    rw [assocUpdate_keys]
    by_cases hin : (m.any fun kv => kv.1 == a.login) = true
    · simpa [hin] using h
    · have hnm : a.login ∉ m.map Prod.fst := by
        intro hmem
        rcases List.mem_map.mp hmem with ⟨kv, hkv, hfst⟩
        exact hin (List.any_eq_true.mpr ⟨kv, hkv, by simp [hfst]⟩)
      have hin' : (m.any fun kv => kv.1 == a.login) = false := by
        rw [← Bool.not_eq_true]; exact hin
      simp [hin', List.nodup_append, h, hnm]

theorem aggregate_loop_keys_nodup (cs : List RawCommit) :
    ∀ m : List (String × AuthorData), (m.map Prod.fst).Nodup →
      ((cs.foldl aggStep m).map Prod.fst).Nodup := by
  induction cs with
  | nil => intro m h; simpa using h
  | cons c cs ih =>
      intro m h
      exact ih _ (aggStep_keys_nodup m c h)

theorem aggregate_keys_nodup (cs : List RawCommit) :
    ((aggregate cs).map Prod.fst).Nodup :=
  aggregate_loop_keys_nodup cs [] (by simp)

/-! ## Lemmas about fence repair and evidence selection -/

theorem splitOnFuel_ne_nil (sep : List Char) :
    ∀ (fuel : Nat) (l acc : List Char), splitOnFuel sep fuel l acc ≠ [] := by
  intro fuel
  induction fuel with
  | zero => intro l acc; cases l <;> simp [splitOnFuel]
  | succ n ih =>
      intro l acc
      cases l with
      | nil => simp [splitOnFuel]
      | cons c rest =>
          simp only [splitOnFuel]
          by_cases h : sep ≠ [] ∧ sep.isPrefixOf (c :: rest)
          · simp [h]
          · simp only [if_neg h]
            exact ih rest (c :: acc)

theorem strSplitOn_of_startsWith (t sep : String) (hsep : sep.data ≠ [])
    (h : strStartsWith t sep = true) :
    ∃ x y l, strSplitOn t sep = x :: y :: l := by
  unfold strStartsWith at h
  cases ht : t.data with
  | nil =>
      rw [ht] at h
      have : sep.data <+: [] := List.isPrefixOf_iff_prefix.mp h
      exact absurd (List.prefix_nil.mp this) hsep
  | cons c rest =>
      unfold strSplitOn
      rw [ht]
      simp only [List.length_cons, splitOnFuel]
      rw [if_pos ⟨hsep, ht ▸ h⟩]
      cases htail : splitOnFuel sep.data rest.length ((c :: rest).drop sep.data.length) [] with
      | nil => exact absurd htail (splitOnFuel_ne_nil _ _ _ _)
      | cons y ys =>
          refine ⟨String.mk [], String.mk y, ys.map String.mk, ?_⟩
          simp

theorem stripFences_ok (s : String) : ∃ c, stripFences s = Except.ok c := by
  by_cases h : strStartsWith (pyStrip s) "```" = true
  · obtain ⟨x, y, l, hxy⟩ := strSplitOn_of_startsWith (pyStrip s) "```" (by decide) h
    by_cases hj : strStartsWith y "json" = true
    · exact ⟨strDrop y 4, by simp [stripFences, h, hxy, pyIndex, hj]⟩
    · exact ⟨y, by simp [stripFences, h, hxy, pyIndex, hj]⟩
  · exact ⟨pyStrip s, by simp [stripFences, h]⟩

theorem mkEvidence_eq (username : String) (cd : AuthorData) (repoName : String)
    (ord : List String → List String) (hne : cd.commits ≠ []) :
    mkEvidence username cd repoName ord = Except.ok
      { username := username, repoName := repoName,
        totalCommits := cd.commits.length,
        avgAdditions := (sumAdditions cd.commits : ℚ) / (cd.commits.length : ℚ),
        avgDeletions := (sumDeletions cd.commits : ℚ) / (cd.commits.length : ℚ),
        topLanguages := mostCommon 5 cd.languages,
        recentMessages := ((cd.commits.take 20).map (fun c => c.message)).map
          (fun m => "- " ++ strTake (firstLine m) 100),
        filePaths := (ord (cd.files_changed.take 40)).take 20 } := by
  have h0 : cd.commits.length ≠ 0 := by
    simpa [List.length_eq_zero] using hne
  simp [mkEvidence, pyDivNat, h0]

/-! ## C1: synthesis failures never escape `generate_profile` -/

/-- **C1.** For every aggregated entity (such accumulators always carry at
least one commit) and every reasoning-service outcome, `generate_profile`
returns a profile — it never raises; and whenever the outcome is a failure
(a raised service/timeout error, or any response text that does not parse
as a JSON object: malformed JSON, empty text), the result is exactly the
deterministic fallback profile built purely from the aggregated data, with
generic placeholder text in every model-synthesized field. -/
theorem generate_profile_never_throws
    (username : String) (cd : AuthorData) (repoName : String)
    (ord : List String → List String) (outcome : ClaudeOutcome)
    (parse : String → Option JValue) (hne : cd.commits ≠ []) :
    (∃ p, generate_profile username cd repoName ord outcome parse = Except.ok p) ∧
    (BadSynthesisOutcome parse outcome →
      generate_profile username cd repoName ord outcome parse =
        Except.ok (fallbackProfile username cd repoName (mostCommon 5 cd.languages))) := by
  have hev := mkEvidence_eq username cd repoName ord hne
  have hgen : generate_profile username cd repoName ord outcome parse =
      match synthAttempt username cd repoName (mostCommon 5 cd.languages) outcome parse with
      | Except.ok p => Except.ok p
      | Except.error _ =>
          Except.ok (fallbackProfile username cd repoName (mostCommon 5 cd.languages)) := by
    simp only [generate_profile, hev, pyBind_ok]
  cases outcome with
  | raised m =>
      have hfall : generate_profile username cd repoName ord
          (ClaudeOutcome.raised m) parse =
          Except.ok (fallbackProfile username cd repoName (mostCommon 5 cd.languages)) := by
        rw [hgen]; simp [synthAttempt]
      exact ⟨⟨_, hfall⟩, fun _ => hfall⟩
  | text s =>
      obtain ⟨c, hc⟩ := stripFences_ok s
      have hatt : synthAttempt username cd repoName (mostCommon 5 cd.languages)
          (ClaudeOutcome.text s) parse =
          match parse c with
          | none => Except.error PyErr.jsonDecodeError
          | some (JValue.obj kvs) => Except.ok (dictMerge
              (basicProfile username cd repoName (mostCommon 5 cd.languages)) kvs)
          | some _ => Except.error PyErr.typeError := by
        simp [synthAttempt, hc]
      have hfall : ∀ e : PyErr,
          synthAttempt username cd repoName (mostCommon 5 cd.languages)
            (ClaudeOutcome.text s) parse = Except.error e →
          generate_profile username cd repoName ord (ClaudeOutcome.text s) parse =
            Except.ok (fallbackProfile username cd repoName (mostCommon 5 cd.languages)) := by
        intro e he
        rw [hgen, he]
      cases hp : parse c with
      | none =>
          have h1 := hfall _ (by rw [hatt, hp])
          exact ⟨⟨_, h1⟩, fun _ => h1⟩
      | some v =>
          cases v with
          | obj kvs =>
              have hok : generate_profile username cd repoName ord
                  (ClaudeOutcome.text s) parse =
                  Except.ok (dictMerge
                    (basicProfile username cd repoName (mostCommon 5 cd.languages)) kvs) := by
                rw [hgen, hatt, hp]
              exact ⟨⟨_, hok⟩, fun hbad => absurd hp (hbad c hc kvs)⟩
          | null =>
              have h1 := hfall _ (by rw [hatt, hp])
              exact ⟨⟨_, h1⟩, fun _ => h1⟩
          | bool b =>
              have h1 := hfall _ (by rw [hatt, hp])
              exact ⟨⟨_, h1⟩, fun _ => h1⟩
          | num n =>
              have h1 := hfall _ (by rw [hatt, hp])
              exact ⟨⟨_, h1⟩, fun _ => h1⟩
          | str st =>
              have h1 := hfall _ (by rw [hatt, hp])
              exact ⟨⟨_, h1⟩, fun _ => h1⟩
          | arr xs =>
              have h1 := hfall _ (by rw [hatt, hp])
              exact ⟨⟨_, h1⟩, fun _ => h1⟩

/-- Witness for C1: concrete aggregated data with a raised service call
produces exactly the fallback profile. -/
theorem generate_profile_never_throws_witness :
    wAliceData.commits ≠ [] ∧
    generate_profile "alice" wAliceData "good" dedupFirstSeen
        (ClaudeOutcome.raised "service down") wParseNone =
      Except.ok (fallbackProfile "alice" wAliceData "good"
        (mostCommon 5 wAliceData.languages)) :=
  ⟨by decide,
   (generate_profile_never_throws "alice" wAliceData "good" dedupFirstSeen
      (ClaudeOutcome.raised "service down") wParseNone (by decide)).2 trivial⟩

/-! ## C2: sub-threshold authors are skipped before synthesis -/

/-- **C2.** An author whose accumulated commit count in one aggregation
run is strictly below 2 never reaches synthesis: it does not appear in
`synthesizedAuthors`, the exact list of (author, accumulator) pairs for
which `analyze_repository` calls `generate_profile`, so no profile is
produced for it in that run. -/
theorem sub_threshold_author_skipped
    (commits : List RawCommit) (u : String) (data : AuthorData)
    (hmem : (u, data) ∈ aggregate commits)
    (hlt : data.commits.length < 2) :
    u ∉ (synthesizedAuthors commits).map Prod.fst := by
  intro hu
  rcases List.mem_map.mp hu with ⟨⟨u', d⟩, hd, hfst⟩
  have hu' : u' = u := hfst
  subst hu'
  have hd' := List.mem_filter.mp hd
  have hdd : d = data :=
    assoc_nodup_functional _ (aggregate_keys_nodup commits) hd'.1 hmem
  have hnot : ¬ (d.commits.length < 2) := by simpa using hd'.2
  exact hnot (hdd ▸ hlt)

/-- Witness for C2: bob has a single accumulated commit and is absent from
the synthesis list. -/
theorem sub_threshold_author_skipped_witness :
    ("bob", wBobData) ∈ aggregate wCommits ∧ wBobData.commits.length < 2 ∧
    "bob" ∉ (synthesizedAuthors wCommits).map Prod.fst :=
  ⟨by decide, by decide,
   sub_threshold_author_skipped wCommits "bob" wBobData (by decide) (by decide)⟩

/-! ## C10: the mean-size divisions are safe under the caller guarantee -/

/-- **C10.** Every (author, accumulator) pair that reaches
`generate_profile` has at least 2 commits, so the mean lines-added and
mean lines-deleted computations divide by a strictly positive count: both
`pyDivNat` calls return a value (the `ZeroDivisionError` branch is
unreachable) and evidence selection always produces a bundle. -/
theorem synthesized_author_division_safe
    (commits : List RawCommit) (u : String) (data : AuthorData)
    (h : (u, data) ∈ synthesizedAuthors commits) :
    2 ≤ data.commits.length ∧
    (∃ qa, pyDivNat (sumAdditions data.commits) data.commits.length = Except.ok qa) ∧
    (∃ qd, pyDivNat (sumDeletions data.commits) data.commits.length = Except.ok qd) ∧
    ∀ repoName ord, ∃ ev, mkEvidence u data repoName ord = Except.ok ev := by
  have h2 : ¬ (data.commits.length < 2) := by
    simpa using (List.mem_filter.mp h).2
  have hle : 2 ≤ data.commits.length := Nat.le_of_not_lt h2
  have h0 : data.commits.length ≠ 0 := by omega
  have hne : data.commits ≠ [] := by
    intro hnil
    rw [hnil] at h0
    simp at h0
  refine ⟨hle,
    ⟨(sumAdditions data.commits : ℚ) / (data.commits.length : ℚ), ?_⟩,
    ⟨(sumDeletions data.commits : ℚ) / (data.commits.length : ℚ), ?_⟩,
    fun repoName ord => ⟨_, mkEvidence_eq u data repoName ord hne⟩⟩
  · simp [pyDivNat, h0]
  · simp [pyDivNat, h0]

/-- Witness for C10 at a concrete synthesized author. -/
theorem synthesized_author_division_safe_witness :
    ("alice", wAliceData) ∈ synthesizedAuthors wCommits ∧
    2 ≤ wAliceData.commits.length ∧
    (∃ qa, pyDivNat (sumAdditions wAliceData.commits) wAliceData.commits.length =
      Except.ok qa) :=
  ⟨by decide,
   (synthesized_author_division_safe wCommits "alice" wAliceData (by decide)).1,
   (synthesized_author_division_safe wCommits "alice" wAliceData (by decide)).2.1⟩

/-! ## C4: the prompt context and the path sample -/

set_option maxRecDepth 4000 in
/-- Counterexample for C4: with path list `40 × "a.py", "b.js"` the code
truncates to 40 paths and only then de-duplicates, so `b.js` is lost even
under the most favourable (first-seen) set order, while the sample the
spec describes (de-duplicate, then cap) keeps both paths. -/
theorem evidence_path_sample_cex :
    (mkEvidence "carol" wCarolData "good" dedupFirstSeen).map
        EvidenceBundle.filePaths = Except.ok ["a.py"] ∧
    specPathSample wCarolData.files_changed = ["a.py", "b.js"] := by
  decide

/-- **C4 (amended).** Evidence selection is a pure function of the
aggregated data and the set-iteration order: for every valid set order,
the path sample equals `list(set(files_changed[:40]))[:20]` — the cap of
40 is applied *before* de-duplication and the order is the (unspecified)
set order, not first-seen — and it therefore contains no duplicates and
only paths among the first 40. -/
theorem evidence_bundle_policy
    (ord : List String → List String) (hord : IsSetListing ord)
    (username : String) (cd : AuthorData) (repoName : String)
    (hne : cd.commits ≠ []) :
    ∃ ev, mkEvidence username cd repoName ord = Except.ok ev ∧
      ev.filePaths = (ord (cd.files_changed.take 40)).take 20 ∧
      ev.filePaths.Nodup ∧
      (∀ p, p ∈ ev.filePaths → p ∈ cd.files_changed.take 40) ∧
      ev.topLanguages = mostCommon 5 cd.languages ∧
      ev.recentMessages = ((cd.commits.take 20).map (fun c => c.message)).map
        (fun m => "- " ++ strTake (firstLine m) 100) := by
  refine ⟨_, mkEvidence_eq username cd repoName ord hne, rfl, ?_, ?_, rfl, rfl⟩
  · exact List.Nodup.sublist (List.take_sublist _ _) (hord _).1
  · intro p hp
    exact ((hord _).2 p).mp ((List.take_sublist _ _).subset hp)

/-- Witness for the amended C4 at a concrete set order and input. -/
theorem evidence_bundle_policy_witness :
    IsSetListing (dedupFirstSeen (α := String)) ∧ wCarolData.commits ≠ [] ∧
    ∃ ev, mkEvidence "carol" wCarolData "good" dedupFirstSeen = Except.ok ev ∧
      ev.filePaths.Nodup := by
  refine ⟨isSetListing_dedupFirstSeen, by decide, ?_⟩
  obtain ⟨ev, h1, _, h3, _⟩ := evidence_bundle_policy dedupFirstSeen
    isSetListing_dedupFirstSeen "carol" wCarolData "good" (by decide)
  exact ⟨ev, h1, h3⟩

/-! ## The merge body of `analyze_repos` -/

theorem mergeProfile_eq
    (ordJ : List JValue → List JValue) (old newP : PyDict) (t1 t2 : Int)
    (e1 e2 : List JValue)
    (h1 : dictGet old "total_commits" = Except.ok (JValue.num t1))
    (h2 : dictGet newP "total_commits" = Except.ok (JValue.num t2))
    (h3 : dictGet old "expertise_areas" = Except.ok (JValue.arr e1))
    (h4 : dictGet newP "expertise_areas" = Except.ok (JValue.arr e2))
    (hh1 : e1.all JValue.hashable = true) (hh2 : e2.all JValue.hashable = true) :
    mergeProfile ordJ old newP = Except.ok
      (dictSet (dictSet old "total_commits" (JValue.num (t1 + t2)))
        "expertise_areas" (JValue.arr ((ordJ (e1 ++ e2)).take 5))) := by
  have h3' : dictGet (dictSet old "total_commits" (JValue.num (t1 + t2)))
      "expertise_areas" = Except.ok (JValue.arr e1) := by
    rw [dictGet_dictSet_ne _ _ _ _ (by decide), h3]
  simp only [mergeProfile, h1, h2, h3', h4, pyAdd, pySetElems, pyIter, pyBind_ok]
  rw [if_pos hh1, pyBind_ok, if_pos hh2, pyBind_ok]

/-! ## C3: the merge policy -/

/-- Counterexample for C3: the merge keeps the *existing* profile's
`ai_summary` and `primary_languages`; the new profile's values are
discarded, so neither "last-write-wins for the other model-synthesized
fields" nor "last-synthesis-wins for the primary-tag field" holds. -/
theorem merge_not_last_write_wins_cex :
    mergeProfile dedupFirstSeen pOldProfile pNewProfile = Except.ok
      [("github_username", JValue.str "bob"),
       ("total_commits", JValue.num 8),
       ("primary_languages", JValue.arr [JValue.str "Python"]),
       ("expertise_areas",
         JValue.arr [JValue.str "A", JValue.str "B", JValue.str "C"]),
       ("ai_summary", JValue.str "old summary")] ∧
    dictGet pNewProfile "ai_summary" = Except.ok (JValue.str "new summary") ∧
    dictGet pNewProfile "primary_languages" =
      Except.ok (JValue.arr [JValue.str "Go"]) := by
  decide

/-- **C3 (amended).** For profiles with the expected field types, the
merge sums `total_commits`, replaces `expertise_areas` with
`list(set(existing) | set(new))[:5]` — the set union in the (unspecified)
set-iteration order, truncated to 5 — and keeps *every* other field of the
existing profile unchanged (first-write-wins): the primary-tag field and
all other model-synthesized fields of the new profile are discarded. -/
theorem mergeProfile_policy
    (ordJ : List JValue → List JValue) (hord : IsSetListing ordJ)
    (old newP : PyDict) (t1 t2 : Int) (e1 e2 : List JValue)
    (h1 : dictGet old "total_commits" = Except.ok (JValue.num t1))
    (h2 : dictGet newP "total_commits" = Except.ok (JValue.num t2))
    (h3 : dictGet old "expertise_areas" = Except.ok (JValue.arr e1))
    (h4 : dictGet newP "expertise_areas" = Except.ok (JValue.arr e2))
    (hh1 : e1.all JValue.hashable = true) (hh2 : e2.all JValue.hashable = true) :
    ∃ d, mergeProfile ordJ old newP = Except.ok d ∧
      dictGet d "total_commits" = Except.ok (JValue.num (t1 + t2)) ∧
      dictGet d "expertise_areas" =
        Except.ok (JValue.arr ((ordJ (e1 ++ e2)).take 5)) ∧
      (∀ v, v ∈ ordJ (e1 ++ e2) ↔ (v ∈ e1 ∨ v ∈ e2)) ∧
      (ordJ (e1 ++ e2)).Nodup ∧
      (∀ k, k ≠ "total_commits" → k ≠ "expertise_areas" →
        dictGet d k = dictGet old k) := by
  refine ⟨_, mergeProfile_eq ordJ old newP t1 t2 e1 e2 h1 h2 h3 h4 hh1 hh2,
    ?_, ?_, ?_, (hord _).1, ?_⟩
  · rw [dictGet_dictSet_ne _ _ _ _ (by decide), dictGet_dictSet_self]
  · rw [dictGet_dictSet_self]
  · intro v
    rw [(hord _).2 v]
    simp
  · intro k hk1 hk2
    rw [dictGet_dictSet_ne _ _ _ _ (Ne.symm hk2), dictGet_dictSet_ne _ _ _ _ (Ne.symm hk1)]

/-- Witness for the amended C3 at concrete profiles and set order. -/
theorem mergeProfile_policy_witness :
    IsSetListing (dedupFirstSeen (α := JValue)) ∧
    ∃ d, mergeProfile dedupFirstSeen pOldProfile pNewProfile = Except.ok d ∧
      dictGet d "total_commits" = Except.ok (JValue.num (5 + 3)) ∧
      dictGet d "ai_summary" = dictGet pOldProfile "ai_summary" := by
  refine ⟨isSetListing_dedupFirstSeen, ?_⟩
  obtain ⟨d, hd, ht, _, _, _, hrest⟩ := mergeProfile_policy dedupFirstSeen
    isSetListing_dedupFirstSeen pOldProfile pNewProfile 5 3
    [JValue.str "A", JValue.str "B"] [JValue.str "B", JValue.str "C"]
    (by decide) (by decide) (by decide) (by decide) (by decide) (by decide)
  exact ⟨d, hd, ht, hrest "ai_summary" (by decide) (by decide)⟩

/-! ## C8: merging a profile with an identical copy of itself -/

/-- Counterexample for C8: a profile with six distinct expertise entries
merged with itself loses one of them to the cap of 5, so the merged list
is not set-equal to the original deduplicated list (the event count is
still doubled). -/
theorem merge_self_truncation_cex :
    mergeProfile dedupFirstSeen pSixProfile pSixProfile = Except.ok
      [("github_username", JValue.str "dan"),
       ("total_commits", JValue.num 8),
       ("expertise_areas",
         JValue.arr [JValue.str "A1", JValue.str "A2", JValue.str "A3",
                     JValue.str "A4", JValue.str "A5"]),
       ("ai_summary", JValue.str "dan summary")] ∧
    dictGet pSixProfile "expertise_areas" = Except.ok
      (JValue.arr [JValue.str "A1", JValue.str "A2", JValue.str "A3",
                   JValue.str "A4", JValue.str "A5", JValue.str "A6"]) ∧
    JValue.str "A6" ∉
      [JValue.str "A1", JValue.str "A2", JValue.str "A3",
       JValue.str "A4", JValue.str "A5"] := by
  decide

/-- **C8 (amended).** Merging a profile with an identical copy of itself
doubles the total event count and, *provided the original list has at most
5 distinct entries*, yields a capability list that as a set equals the
original list deduplicated; with more than 5 distinct entries the union is
truncated to 5 of them. -/
theorem mergeProfile_self_policy
    (ordJ : List JValue → List JValue) (hord : IsSetListing ordJ)
    (p : PyDict) (t : Int) (e : List JValue)
    (h1 : dictGet p "total_commits" = Except.ok (JValue.num t))
    (h3 : dictGet p "expertise_areas" = Except.ok (JValue.arr e))
    (hh : e.all JValue.hashable = true)
    (hcard : (dedupFirstSeen e).length ≤ 5) :
    ∃ d, mergeProfile ordJ p p = Except.ok d ∧
      dictGet d "total_commits" = Except.ok (JValue.num (2 * t)) ∧
      ∃ l, dictGet d "expertise_areas" = Except.ok (JValue.arr l) ∧
        l.Nodup ∧ ∀ v, v ∈ l ↔ v ∈ e := by
  have heq := mergeProfile_eq ordJ p p t t e e h1 h1 h3 h3 hh hh
  have hmem : ∀ v, v ∈ ordJ (e ++ e) ↔ v ∈ e := by
    intro v
    rw [(hord _).2 v]
    simp
  have hnd : (ordJ (e ++ e)).Nodup := (hord _).1
  have hdfs := isSetListing_dedupFirstSeen (α := JValue) e
  have hfin : (ordJ (e ++ e)).toFinset = (dedupFirstSeen e).toFinset := by
    ext v
    simp only [List.mem_toFinset]
    rw [hmem v, (hdfs.2 v)]
  have hlen : (ordJ (e ++ e)).length ≤ 5 := by
    calc (ordJ (e ++ e)).length = (ordJ (e ++ e)).toFinset.card :=
          (List.toFinset_card_of_nodup hnd).symm
      _ = (dedupFirstSeen e).toFinset.card := by rw [hfin]
      _ = (dedupFirstSeen e).length := List.toFinset_card_of_nodup hdfs.1
      _ ≤ 5 := hcard
  have htake : (ordJ (e ++ e)).take 5 = ordJ (e ++ e) :=
    List.take_of_length_le hlen
  refine ⟨_, heq, ?_, ⟨ordJ (e ++ e), ?_, hnd, hmem⟩⟩
  · rw [dictGet_dictSet_ne _ _ _ _ (by decide), dictGet_dictSet_self, two_mul]
  · rw [dictGet_dictSet_self, htake]

/-- Witness for the amended C8 at a concrete profile with two distinct
expertise entries. -/
theorem mergeProfile_self_policy_witness :
    IsSetListing (dedupFirstSeen (α := JValue)) ∧
    (dedupFirstSeen [JValue.str "A", JValue.str "B"]).length ≤ 5 ∧
    ∃ d, mergeProfile dedupFirstSeen pOldProfile pOldProfile = Except.ok d ∧
      dictGet d "total_commits" = Except.ok (JValue.num (2 * 5)) := by
  refine ⟨isSetListing_dedupFirstSeen, by decide, ?_⟩
  obtain ⟨d, hd, ht, _⟩ := mergeProfile_self_policy dedupFirstSeen
    isSetListing_dedupFirstSeen pOldProfile 5 [JValue.str "A", JValue.str "B"]
    (by decide) (by decide) (by decide) (by decide)
  exact ⟨d, hd, ht⟩

/-! ## C5: an empty store short-circuits free-text search -/

/-- **C5.** On an empty profile store, `search_profiles` immediately
returns the empty match list with the informational message, for every
query, service behaviour and parse function — and the reasoning-service
call count is 0. -/
theorem search_empty_store_no_call (query : String) (outcome : ClaudeOutcome)
    (parse : String → Option JValue) :
    search_profiles query [] outcome parse =
      (0, Except.ok
        { matchList := [],
          message := some "No profiles available. Analyze repositories first.",
          query := none }) := rfl

/-! ## C6: defensive filtering and enrichment of matches -/

theorem findProfile_spec (profiles : List PyDict) (mu : JValue)
    (hpk : ∀ p ∈ profiles, hasKey p "github_username" = true) :
    findProfile profiles mu = Except.ok (profiles.find? (fun p =>
      match dictGet p "github_username" with
      | Except.ok pu => pu == mu
      | Except.error _ => false)) := by
  induction profiles with
  | nil => rfl
  | cons p rest ih =>
      obtain ⟨v, hv⟩ := dictGet_of_hasKey p _ (hpk p (by simp))
      have ihr := ih (fun q hq => hpk q (by simp [hq]))
      by_cases hb : (v == mu) = true
      · simp only [findProfile, hv, pyBind_ok, List.find?, hb]
        simp
      · have hb' : (v == mu) = false := by
          rw [← Bool.not_eq_true]; exact hb
        simp only [findProfile, hv, pyBind_ok, List.find?, hb', ihr]
        simp

theorem enrichMatches_spec (profiles : List PyDict)
    (hpk : ∀ p ∈ profiles, hasKey p "github_username" = true)
    (ms : List (List (String × JValue)))
    (hmk : ∀ m ∈ ms, hasKey m "github_username" = true) :
    enrichMatches profiles (ms.map JValue.obj) =
      Except.ok (specEnrich profiles ms) := by
  suffices h : ∀ (ms : List (List (String × JValue))) (acc : List PyDict),
      (∀ m ∈ ms, hasKey m "github_username" = true) →
      List.foldlM (fun acc m => do
        match m with
        | JValue.obj mkv => do
            let mu ← dictGet mkv "github_username"
            match (← findProfile profiles mu) with
            | some p => Except.ok (acc ++ [dictMerge p mkv])
            | none => Except.ok acc
        | _ => Except.error PyErr.typeError) acc (ms.map JValue.obj) =
        Except.ok (acc ++ specEnrich profiles ms) by
    simpa [enrichMatches] using h ms [] hmk
  intro ms
  induction ms with
  | nil =>
      intro acc _
      simp only [List.map_nil, List.foldlM_nil, specEnrich, List.filterMap_nil,
        List.append_nil]
      rfl
  | cons m rest ih =>
      intro acc hm
      obtain ⟨v, hv⟩ := dictGet_of_hasKey m _ (hm m (by simp))
      have ihr := fun acc' => ih acc' (fun q hq => hm q (List.mem_cons_of_mem _ hq))
      rw [List.map_cons, List.foldlM_cons]
      simp only [hv, pyBind_ok, findProfile_spec profiles v hpk]
      cases hfind : profiles.find? (fun p =>
          match dictGet p "github_username" with
          | Except.ok pu => pu == v
          | Except.error _ => false) with
      | none =>
          have hspec : specEnrich profiles (m :: rest) = specEnrich profiles rest := by
            simp [specEnrich, List.filterMap_cons, hv, hfind]
          simp only [pyBind_ok, ihr, hspec]
      | some p =>
          have hspec : specEnrich profiles (m :: rest) =
              dictMerge p m :: specEnrich profiles rest := by
            simp [specEnrich, List.filterMap_cons, hv, hfind]
          simp only [pyBind_ok, ihr, hspec]
          simp

/-- **C6.** When the service response parses as an array of match objects
each carrying an identifier, and every stored profile carries one (both
always true for profiles the pipeline writes), `search_profiles` returns
exactly the filter-and-enrich result: matches whose identifier is absent
from the store are silently dropped, matches whose identifier is present
become `{**profile, **match}` — so on a key collision the match's field
wins, while every other key keeps the full profile's value. -/
theorem search_filters_and_enriches
    (query s c : String) (profiles : List PyDict)
    (parse : String → Option JValue) (ms : List (List (String × JValue)))
    (hne : profiles ≠ [])
    (hclean : stripFences s = Except.ok c)
    (hparse : parse c = some (JValue.arr (ms.map JValue.obj)))
    (hmk : ∀ m ∈ ms, hasKey m "github_username" = true)
    (hpk : ∀ p ∈ profiles, hasKey p "github_username" = true) :
    search_profiles query profiles (ClaudeOutcome.text s) parse =
      (1, Except.ok
        { matchList := specEnrich profiles ms,
          message := none,
          query := some query }) ∧
    (∀ m p, (m.map Prod.fst).Nodup → ∀ k, k ∈ m.map Prod.fst →
      dictGet (dictMerge p m) k = dictGet m k) ∧
    (∀ m p, ∀ k, k ∉ m.map Prod.fst →
      dictGet (dictMerge p m) k = dictGet p k) := by
  refine ⟨?_, fun m p hnd k hk => dictGet_dictMerge_of_mem p m k hnd hk,
    fun m p k hk => dictGet_dictMerge_of_not_mem p m k hk⟩
  have hiE : profiles.isEmpty = false := by
    cases profiles with
    | nil => exact absurd rfl hne
    | cons p rest => rfl
  have hatt : searchAttempt profiles (ClaudeOutcome.text s) parse =
      Except.ok (specEnrich profiles ms) := by
    simp only [searchAttempt, hclean, pyBind_ok, hparse, pyIter]
    exact enrichMatches_spec profiles hpk ms hmk
  simp [search_profiles, hiE, hatt]

/-- Witness for C6: a store `{A, B}` and a response naming `{A, C}` — the
enriched result keeps only `A`, merged under the match's fields. -/
theorem search_filters_and_enriches_witness :
    stripFences "resp" = Except.ok "resp" ∧
    specEnrich [pStoreA, pStoreB] [wMatchA, wMatchC] =
      [dictMerge pStoreA wMatchA] ∧
    search_profiles "ml expert" [pStoreA, pStoreB]
        (ClaudeOutcome.text "resp") wSearchParse =
      (1, Except.ok
        { matchList := specEnrich [pStoreA, pStoreB] [wMatchA, wMatchC],
          message := none,
          query := some "ml expert" }) :=
  ⟨by decide, by decide,
   (search_filters_and_enriches "ml expert" "resp" "resp" [pStoreA, pStoreB]
      wSearchParse [wMatchA, wMatchC] (by decide) (by decide) (by decide)
      (by decide) (by decide)).1⟩

/-! ## C7: one failing source aborts the whole analyze request -/

/-- Counterexample for C7: with one good repository and one failing one in
the same request, the good repository alone does yield a profile, yet the
two-source request raises and leaves the snapshot untouched — the other
source's profiles are *not* persisted, so the sources are not isolated. -/
theorem analyze_partial_failure_cex :
    analyze_endpoint wFetch dedupFirstSeen dedupFirstSeen wParseNone wOutcomes
        { store := [] }
        ["https://github.com/acme/good", "https://github.com/acme/bad"] =
      ({ store := [] },
       Except.error (PyErr.httpException 400 "Error analyzing repository: boom")) ∧
    analyze_repository wFetch dedupFirstSeen wParseNone wOutcomes
        "https://github.com/acme/good" =
      Except.ok [fallbackProfile "alice" wAliceData "good"
        (mostCommon 5 wAliceData.languages)] := by
  decide

/-- **C7 (amended).** When fetching or analyzing any source in the request
fails, the failure is surfaced to the caller as an explicit HTTP 400 error
with a human-readable cause, and the *whole* request aborts: the stored
snapshot stays exactly as it was, so profiles produced for other sources
in the same request are not persisted. -/
theorem analyze_failure_aborts_request
    (fetch : RepoFetch) (ord : List String → List String)
    (ordJ : List JValue → List JValue) (parse : String → Option JValue)
    (outcomes : String → ClaudeOutcome) (st : ServerState)
    (repos : List String) (e : PyErr)
    (h : analyze_repos fetch ord ordJ parse outcomes repos = Except.error e) :
    analyze_endpoint fetch ord ordJ parse outcomes st repos =
      (st, Except.error e) ∧
    ∀ u msg, fetch u = Except.error msg →
      analyze_repository fetch ord parse outcomes u =
        Except.error (PyErr.httpException 400
          ("Error analyzing repository: " ++ msg)) := by
  constructor
  · simp [analyze_endpoint, h]
  · intro u msg hu
    simp [analyze_repository, hu]

/-- Witness for the amended C7 at the concrete two-source request. -/
theorem analyze_failure_aborts_request_witness :
    analyze_repos wFetch dedupFirstSeen dedupFirstSeen wParseNone wOutcomes
        ["https://github.com/acme/good", "https://github.com/acme/bad"] =
      Except.error (PyErr.httpException 400 "Error analyzing repository: boom") ∧
    analyze_endpoint wFetch dedupFirstSeen dedupFirstSeen wParseNone wOutcomes
        { store := [pStoreA] }
        ["https://github.com/acme/good", "https://github.com/acme/bad"] =
      ({ store := [pStoreA] },
       Except.error (PyErr.httpException 400 "Error analyzing repository: boom")) :=
  ⟨by decide,
   (analyze_failure_aborts_request wFetch dedupFirstSeen dedupFirstSeen wParseNone
      wOutcomes { store := [pStoreA] }
      ["https://github.com/acme/good", "https://github.com/acme/bad"]
      (PyErr.httpException 400 "Error analyzing repository: boom") (by decide)).1⟩

/-! ## C9: a successful analyze request replaces the whole snapshot -/

/-- **C9.** A successful analyze request persists exactly the profiles
merged within that request, whatever the previous snapshot contained:
previously stored profiles (including those for entities not observed, or
re-observed, in the request) are dropped and never merged — the merge
accumulator starts empty and only combines profiles produced inside the
request. -/
theorem analyze_success_replaces_snapshot
    (fetch : RepoFetch) (ord : List String → List String)
    (ordJ : List JValue → List JValue) (parse : String → Option JValue)
    (outcomes : String → ClaudeOutcome) (repos : List String)
    (all : List (JValue × PyDict))
    (h : analyze_repos fetch ord ordJ parse outcomes repos = Except.ok all) :
    ∀ st, analyze_endpoint fetch ord ordJ parse outcomes st repos =
      ({ store := all.map Prod.snd },
       Except.ok { success := true,
                   profiles_generated := (all.map Prod.snd).length,
                   profiles := all.map Prod.snd }) := by
  intro st
  simp [analyze_endpoint, h]

/-- Witness for C9: a one-source request overwrites a non-empty prior
snapshot with exactly the request's profiles. -/
theorem analyze_success_replaces_snapshot_witness :
    analyze_repos wFetch dedupFirstSeen dedupFirstSeen wParseNone wOutcomes
        ["https://github.com/acme/good"] =
      Except.ok [(JValue.str "alice",
        fallbackProfile "alice" wAliceData "good" (mostCommon 5 wAliceData.languages))] ∧
    analyze_endpoint wFetch dedupFirstSeen dedupFirstSeen wParseNone wOutcomes
        { store := [pStoreA, pStoreB] } ["https://github.com/acme/good"] =
      ({ store := [(JValue.str "alice",
           fallbackProfile "alice" wAliceData "good"
             (mostCommon 5 wAliceData.languages))].map Prod.snd },
       Except.ok { success := true,
                   profiles_generated := ([(JValue.str "alice",
                     fallbackProfile "alice" wAliceData "good"
                       (mostCommon 5 wAliceData.languages))].map Prod.snd).length,
                   profiles := [(JValue.str "alice",
                     fallbackProfile "alice" wAliceData "good"
                       (mostCommon 5 wAliceData.languages))].map Prod.snd }) :=
  ⟨by decide,
   analyze_success_replaces_snapshot wFetch dedupFirstSeen dedupFirstSeen
     wParseNone wOutcomes ["https://github.com/acme/good"]
     [(JValue.str "alice",
       fallbackProfile "alice" wAliceData "good" (mostCommon 5 wAliceData.languages))]
     (by decide) { store := [pStoreA, pStoreB] }⟩

end Profiler
